import Mathlib

/-!
Shallow embedding of the qrator-exporter collector (collector.go).

The program polls the Qrator JSON-RPC API and re-exposes per-domain
statistics as Prometheus metrics.  Network transport and JSON decoding
are modelled as oracle inputs (a FetchOutcome per upstream call); every
piece of logic the program itself performs — request construction,
envelope error discipline, the collection cycle with its counters and
its fan-out over domains, and the constructor validation — is embedded
as an executable Lean function mirroring the Go source.
-/

namespace QratorExporter

/-- JSON request body sent by qratorPostRequest (struct qratorRequest). -/
structure qratorRequest where
  method : String
  params : String
  id : Int
  deriving Repr, DecidableEq

/-- One domain record in the domains_get envelope (struct qratorDomain). -/
structure qratorDomain where
  id : Int
  name : String
  status : String
  qratorIp : String
  deriving Repr, DecidableEq

/-- Envelope of the domains_get response (struct qratorDomains). -/
structure qratorDomains where
  domains : List qratorDomain
  error : String
  id : Int
  deriving Repr, DecidableEq

/-- The flat statistics record inside the statistics_get envelope
(anonymous Result struct of qratorDomainStat).  Go float64 fields are
modelled as rationals, Go int fields as integers. -/
structure qratorStatResult where
  bsend : Rat
  brecv : Rat
  bout : Rat
  psend : Rat
  precv : Rat
  reqspeed : Rat
  reqlonger10s : Int
  reqlonger07s : Int
  reqlonger05s : Int
  reqlonger02s : Int
  reqall : Int
  err50x : Int
  err501 : Int
  err502 : Int
  err503 : Int
  err504 : Int
  ban : Int
  ban_api : Int
  ban_waf : Int
  billable : Int
  deriving Repr, DecidableEq

/-- Envelope of the statistics_get response (struct qratorDomainStat). -/
structure qratorDomainStat where
  result : qratorStatResult
  error : String
  id : Int
  deriving Repr, DecidableEq

/-- Envelope of the ping response (struct qratorPing). -/
structure qratorPing where
  result : String
  error : String
  id : Int
  deriving Repr, DecidableEq

/-- Error taxonomy of the collector, one constructor per failure site:
validation failure in NewCollector, transport failure in
qratorPostRequest, JSON decode failure, and a non-empty error field in a
decoded envelope. -/
inductive CollectorError where
  | validationError (input : String)
  | transportError (msg : String)
  | decodeError (msg : String)
  | upstreamError (msg : String)
  deriving Repr, DecidableEq

/-- Outcome of one upstream HTTP call as seen after json.Decode: either
qratorPostRequest returned an error, or the body failed to decode, or a
decoded envelope of type a is available.  This is the oracle input that
stands for the network and the JSON decoder. -/
inductive FetchOutcome (a : Type) where
  | transportErr (msg : String)
  | decodeErr (msg : String)
  | body (env : a)
  deriving Repr, DecidableEq

/-- The HTTP request built by qratorPostRequest, before it is handed to
the HTTP client: method, target address, JSON body, headers. -/
structure HttpRequest where
  httpMethod : String
  url : String
  reqBody : qratorRequest
  headers : List (String × String)
  deriving Repr, DecidableEq

/-- qratorPostRequest, the request-construction part: builds the target
address base/methodCls/id, the JSON body with the given method name, an
empty params and the constant id 1, and the two headers. -/
def qratorPostRequest (qratorAPIURL auth : String) (methodCls : String) (id : Int)
    (method : String) : HttpRequest :=
  { httpMethod := "POST"
  , url := qratorAPIURL ++ "/" ++ methodCls ++ "/" ++ toString id
  , reqBody := { method := method, params := "", id := 1 }
  , headers := [("Content-Type", "application/json"), ("X-Qrator-Auth", auth)] }

/-- getQratorDomains: on transport or decode failure propagates the
error; on a decoded envelope with a non-empty error field fails with an
upstream error; otherwise returns the result array verbatim. -/
def getQratorDomains (resp : FetchOutcome qratorDomains) :
    Except CollectorError (List qratorDomain) :=
  match resp with
  | .transportErr m => .error (.transportError m)
  | .decodeErr m => .error (.decodeError m)
  | .body qds =>
      if qds.error ≠ "" then .error (.upstreamError qds.error)
      else .ok qds.domains

/-- getQratorDomainStats: same envelope discipline as getQratorDomains,
returning the full decoded statistics envelope on success. -/
def getQratorDomainStats (resp : FetchOutcome qratorDomainStat) :
    Except CollectorError qratorDomainStat :=
  match resp with
  | .transportErr m => .error (.transportError m)
  | .decodeErr m => .error (.decodeError m)
  | .body s =>
      if s.error ≠ "" then .error (.upstreamError s.error)
      else .ok s

/-- qratorCheck, the constructor liveness probe: fails on transport
error, decode error, or a non-empty error field; otherwise succeeds.
The result field of the ping envelope is never inspected. -/
def qratorCheck (resp : FetchOutcome qratorPing) : Except CollectorError Unit :=
  match resp with
  | .transportErr m => .error (.transportError m)
  | .decodeErr m => .error (.decodeError m)
  | .body ping =>
      if ping.error ≠ "" then .error (.upstreamError ping.error)
      else .ok ()

/-- A metric observation sent to the collection channel: either a
labelled gauge (WithLabelValues ... then the vec element is sent) or a
process counter with its current cumulative value. -/
inductive Metric where
  | gauge (name : String) (labels : List (String × String)) (value : Rat)
  | counter (name : String) (value : Nat)
  deriving Repr, DecidableEq

/-- Name of a metric observation. -/
def Metric.metricName : Metric → String
  | .gauge n _ _ => n
  | .counter n _ => n

/-- Whether an observation is a gauge. -/
def Metric.isGauge : Metric → Bool
  | .gauge _ _ _ => true
  | .counter _ _ => false

/-- The cumulative process counters of the Collector (fields
totalScrapes, failedDomainScrapes, failedDomainStatsScrapes). -/
structure CollectorState where
  totalScrapes : Nat
  failedDomainScrapes : Nat
  failedDomainStatsScrapes : Nat
  deriving Repr, DecidableEq

/-- The gauge observations set and then sent for one domain after a
successful statistics fetch, in the source order of the Set and send
blocks of Collect (lines 122-162 of collector.go).  Metric names carry
the qrator namespace prefix as Prometheus composes them. -/
def domainStatMetrics (qd : qratorDomain) (s : qratorDomainStat) : List Metric :=
  [ .gauge "qrator_bypassed_traffic" [("domain", qd.name)] s.result.bsend
  , .gauge "qrator_incoming_traffic" [("domain", qd.name)] s.result.brecv
  , .gauge "qrator_outgoing_traffic" [("domain", qd.name)] s.result.bout
  , .gauge "qrator_bypassed_packets" [("domain", qd.name)] s.result.psend
  , .gauge "qrator_incoming_packets" [("domain", qd.name)] s.result.precv
  , .gauge "qrator_request_rate" [("domain", qd.name)] s.result.reqspeed
  , .gauge "qrator_slow_requests_count" [("domain", qd.name), ("treshold_seconds", "0.2")] (s.result.reqlonger02s : Rat)
  , .gauge "qrator_slow_requests_count" [("domain", qd.name), ("treshold_seconds", "0.5")] (s.result.reqlonger05s : Rat)
  , .gauge "qrator_slow_requests_count" [("domain", qd.name), ("treshold_seconds", "0.7")] (s.result.reqlonger07s : Rat)
  , .gauge "qrator_slow_requests_count" [("domain", qd.name), ("treshold_seconds", "1.0")] (s.result.reqlonger10s : Rat)
  , .gauge "qrator_requests_count_total" [("domain", qd.name)] (s.result.reqall : Rat)
  , .gauge "qrator_errors_count" [("domain", qd.name), ("code", "50X")] (s.result.err50x : Rat)
  , .gauge "qrator_errors_count" [("domain", qd.name), ("code", "501")] (s.result.err501 : Rat)
  , .gauge "qrator_errors_count" [("domain", qd.name), ("code", "502")] (s.result.err502 : Rat)
  , .gauge "qrator_errors_count" [("domain", qd.name), ("code", "503")] (s.result.err503 : Rat)
  , .gauge "qrator_errors_count" [("domain", qd.name), ("code", "504")] (s.result.err504 : Rat)
  , .gauge "qrator_banned_ip_addresses_count" [("domain", qd.name), ("source", "Qrator")] (s.result.ban : Rat)
  , .gauge "qrator_banned_ip_addresses_count" [("domain", qd.name), ("source", "Qrator.API")] (s.result.ban_api : Rat)
  , .gauge "qrator_banned_ip_addresses_count" [("domain", qd.name), ("source", "WAF")] (s.result.ban_waf : Rat)
  , .gauge "qrator_billable_traffic" [("domain", qd.name)] (s.result.billable : Rat) ]

/-- Body of one fan-out goroutine of Collect: fetch the statistics for
one domain; on failure contribute one increment of the
failedDomainStatsScrapes counter and no observations, on success
contribute the full per-domain observation block. -/
def collectDomain (statsResp : qratorDomain → FetchOutcome qratorDomainStat)
    (qd : qratorDomain) : Nat × List Metric :=
  match getQratorDomainStats (statsResp qd) with
  | .error _ => (1, [])
  | .ok s => (0, domainStatMetrics qd s)

/-- The list of domains the cycle fans out over: the enumeration result
on success, the nil slice on failure. -/
def enumDomains (domainsResp : FetchOutcome qratorDomains) : List qratorDomain :=
  match getQratorDomains domainsResp with
  | .error _ => []
  | .ok qds => qds

/-- The per-domain observation blocks of one cycle, one block per
enumerated domain, in enumeration order. -/
def collectBlocks (statsResp : qratorDomain → FetchOutcome qratorDomainStat)
    (qds : List qratorDomain) : List (List Metric) :=
  qds.map (fun qd => (collectDomain statsResp qd).2)

/-- The counter observations sent after wg.Wait() at the end of Collect:
only totalScrapes and failedDomainScrapes are sent (lines 167-168);
failedDomainStatsScrapes is never sent. -/
def counterTail (st : CollectorState) : List Metric :=
  [ .counter "qrator_exporter_scrapes_total" st.totalScrapes
  , .counter "qrator_exporter_failed_domain_scrapes_total" st.failedDomainScrapes ]

/-- State transition of one Collect cycle: increments totalScrapes
unconditionally, increments failedDomainScrapes when the enumeration
fails, and increments failedDomainStatsScrapes once per failed
statistics fetch. -/
def collectState (st : CollectorState) (domainsResp : FetchOutcome qratorDomains)
    (statsResp : qratorDomain → FetchOutcome qratorDomainStat) : CollectorState :=
  let st1 : CollectorState := { st with totalScrapes := st.totalScrapes + 1 }
  let st2 : CollectorState :=
    match getQratorDomains domainsResp with
    | .error _ => { st1 with failedDomainScrapes := st1.failedDomainScrapes + 1 }
    | .ok _ => st1
  let failedStats := ((enumDomains domainsResp).map
    (fun qd => (collectDomain statsResp qd).1)).sum
  { st2 with failedDomainStatsScrapes := st2.failedDomainStatsScrapes + failedStats }

/-- One Collect cycle: returns the updated counter state together with
the sequence of observations sent to the channel under the sequential
schedule (the per-domain blocks in enumeration order, then the counter
tail).  Collect itself is total: it never returns an error. -/
def Collect (st : CollectorState) (domainsResp : FetchOutcome qratorDomains)
    (statsResp : qratorDomain → FetchOutcome qratorDomainStat) :
    CollectorState × List Metric :=
  let st' := collectState st domainsResp statsResp
  (st', (collectBlocks statsResp (enumDomains domainsResp)).flatten ++ counterTail st')

/-- Value of one decimal digit character, none for a non-digit
(mirrors the per-byte check of strconv). -/
def digitVal (c : Char) : Option Nat :=
  if '0' ≤ c ∧ c ≤ '9' then some (c.toNat - '0'.toNat) else none

/-- Accumulating digit parse over a character list: fails on the first
non-digit. -/
def parseDigits : List Char → Nat → Option Nat
  | [], acc => some acc
  | c :: cs, acc =>
      match digitVal c with
      | none => none
      | some d => parseDigits cs (acc * 10 + d)

/-- Sign handling of strconv: a leading minus flags negation, a
leading plus is consumed, anything else leaves the characters
untouched. -/
def splitSign : List Char → Bool × List Char
  | '-' :: rest => (true, rest)
  | '+' :: rest => (false, rest)
  | cs => (false, cs)

/-- strconv.Atoi on a 64-bit platform: an optional leading plus or
minus sign followed by one or more decimal digits, within the int64
range; anything else (empty string, stray characters, overflow) is an
error, modelled as none. -/
def Atoi (s : String) : Option Int :=
  let neg := (splitSign s.data).1
  let ds := (splitSign s.data).2
  if ds = [] then none
  else
    match parseDigits ds 0 with
    | none => none
    | some n =>
        let v : Int := if neg then -(n : Int) else (n : Int)
        if -(2 ^ 63) ≤ v ∧ v ≤ 2 ^ 63 - 1 then some v else none

/-- The configuration part of a constructed Collector. -/
structure CollectorConfig where
  auth : String
  clientID : Int
  qratorAPIURL : String
  deriving Repr, DecidableEq

/-- NewCollector: parses the client id with Atoi, failing with a
validation error on parse failure before any network request; then runs
the qratorCheck liveness probe (whose outcome, a function of the parsed
client id, is the oracle input) and fails with the probe's error when it
fails; only then is the collector created. -/
def NewCollector (url clientID auth : String)
    (pingResp : Int → FetchOutcome qratorPing) :
    Except CollectorError CollectorConfig :=
  match Atoi clientID with
  | none => .error (.validationError clientID)
  | some cid =>
      match qratorCheck (pingResp cid) with
      | .error e => .error e
      | .ok _ => .ok { auth := auth, clientID := cid, qratorAPIURL := url }

/-- An admissible schedule of the concurrent fan-out: a list l is an
interleaving of the per-goroutine emission blocks bs when it can be
produced by repeatedly emitting the next pending element of some block,
preserving each block's internal order.  The channel sees such an
interleaving of the per-domain sends before wg.Wait() returns. -/
inductive Interleaving {α : Type} : List (List α) → List α → Prop where
  | done (bs : List (List α)) (h : ∀ b ∈ bs, b = []) : Interleaving bs []
  | step (bs₁ : List (List α)) (x : α) (b : List α) (bs₂ : List (List α)) (l : List α) :
      Interleaving (bs₁ ++ b :: bs₂) l →
      Interleaving (bs₁ ++ (x :: b) :: bs₂) (x :: l)

/-- Values carried by the slow-request gauges of one per-domain block
for a given threshold label, extracted by metric name and the threshold
label pair (ignoring the domain label). -/
def slowRequestValues (qd : qratorDomain) (s : qratorDomainStat) (th : String) : List Rat :=
  (domainStatMetrics qd s).filterMap (fun m =>
    match m with
    | .gauge n (_ :: rest) v =>
        if n = "qrator_slow_requests_count" ∧ rest = [("treshold_seconds", th)] then some v
        else none
    | _ => none)

/-- Observation key used to count distinct observations of one
per-domain block: the metric name together with the labels beyond the
leading domain label (the domain label is shared by the whole block). -/
def metricKey : Metric → String × List (String × String)
  | .gauge n ls _ => (n, ls.drop 1)
  | .counter n _ => (n, [])

/-- Whether the statistics fetch for one domain fails under the given
oracle. -/
def statFetchFailed (statsResp : qratorDomain → FetchOutcome qratorDomainStat)
    (qd : qratorDomain) : Bool :=
  match getQratorDomainStats (statsResp qd) with
  | .error _ => true
  | .ok _ => false

section Fixtures

/-- The domain of the repository's test server fixtures. -/
def exDomain : qratorDomain :=
  { id := 321, name := "www.example.com", status := "online", qratorIp := "1.2.3.4" }

/-- A second domain, used as a sibling in mixed-outcome cycles. -/
def exDomain2 : qratorDomain :=
  { id := 322, name := "www.example.org", status := "online", qratorIp := "1.2.3.5" }

/-- Statistics values from the repository's test server fixture
(integer fields verbatim, traffic rationals simplified). -/
def exStatResult : qratorStatResult :=
  { bsend := 4111803, brecv := 4203930, bout := 19965551
  , psend := 1772, precv := 1898, reqspeed := 151
  , reqlonger10s := 657, reqlonger07s := 1123, reqlonger05s := 1899, reqlonger02s := 4073
  , reqall := 27606, err50x := 16, err501 := 0, err502 := 0, err503 := 0, err504 := 14
  , ban := 0, ban_api := 4, ban_waf := 0, billable := 19 }

/-- A successful statistics envelope. -/
def exStat : qratorDomainStat := { result := exStatResult, error := "", id := 1 }

/-- A successful one-domain enumeration response. -/
def exDomainsResp : FetchOutcome qratorDomains :=
  .body { domains := [exDomain], error := "", id := 1 }

/-- A successful two-domain enumeration response. -/
def exDomainsResp2 : FetchOutcome qratorDomains :=
  .body { domains := [exDomain, exDomain2], error := "", id := 1 }

/-- An enumeration transport failure. -/
def exDomainsRespFail : FetchOutcome qratorDomains := .transportErr "connection refused"

/-- A statistics oracle answering every domain with the fixture
envelope. -/
def exStatsResp : qratorDomain → FetchOutcome qratorDomainStat := fun _ => .body exStat

/-- A statistics oracle where the fixture domain succeeds and every
other domain fails with a truncated-JSON decode error. -/
def exStatsRespMixed : qratorDomain → FetchOutcome qratorDomainStat :=
  fun qd => if qd.id = 321 then .body exStat else .decodeErr "unexpected EOF"

/-- The zero counter state of a freshly constructed collector. -/
def st0 : CollectorState :=
  { totalScrapes := 0, failedDomainScrapes := 0, failedDomainStatsScrapes := 0 }

/-- A ping oracle that always answers pong with no error. -/
def pingOk : Int → FetchOutcome qratorPing :=
  fun _ => .body { result := "pong", error := "", id := 1 }

end Fixtures

section Helpers

/-- Adding an exhausted block in front of the pending blocks does not
change the admissible schedules. -/
lemma Interleaving.cons_nil {α : Type} {bs : List (List α)} {l : List α}
    (h : Interleaving bs l) : Interleaving ([] :: bs) l := by
  induction h with
  | done bs hb =>
      refine .done ([] :: bs) ?_
      intro b hb'
      rcases List.mem_cons.mp hb' with rfl | hb'
      · rfl
      · exact hb b hb'
  | step bs₁ x b bs₂ l h ih => exact Interleaving.step ([] :: bs₁) x b bs₂ l ih

/-- The first block may be scheduled in one contiguous run before the
rest of any schedule of the remaining blocks. -/
lemma interleaving_block {α : Type} (b : List α) {bs : List (List α)} {l : List α}
    (h : Interleaving bs l) : Interleaving (b :: bs) (b ++ l) := by
  induction b with
  | nil => exact h.cons_nil
  | cons x b' ih => exact Interleaving.step [] x b' bs _ ih

/-- The sequential schedule (blocks one after the other, in order) is
an admissible interleaving. -/
lemma interleaving_flatten {α : Type} (bs : List (List α)) : Interleaving bs bs.flatten := by
  induction bs with
  | nil => exact .done [] (by intro b hb; cases hb)
  | cons b bs ih => exact interleaving_block b ih

/-- Flattening a list of exhausted blocks yields the empty list. -/
lemma flatten_eq_nil_of_forall {α : Type} :
    ∀ bs : List (List α), (∀ b ∈ bs, b = []) → bs.flatten = []
  | [], _ => rfl
  | b :: bs, h => by
      rw [List.flatten_cons, h b (List.mem_cons_self b bs),
        flatten_eq_nil_of_forall bs (fun b hb => h b (List.mem_cons_of_mem _ hb))]
      rfl

/-- Every admissible schedule is a permutation of the sequential one:
interleavings reorder but neither drop nor duplicate emissions. -/
lemma Interleaving.perm_flatten {α : Type} {bs : List (List α)} {l : List α}
    (h : Interleaving bs l) : l.Perm bs.flatten := by
  induction h with
  | done bs hb => rw [flatten_eq_nil_of_forall bs hb]
  | step bs₁ x b bs₂ l h ih =>
      refine (ih.cons x).trans ?_
      simp only [List.flatten_append, List.flatten_cons, List.cons_append]
      exact List.perm_middle.symm

/-- Every emission of an admissible schedule belongs to one of the
blocks. -/
lemma Interleaving.mem_blocks {α : Type} {bs : List (List α)} {l : List α}
    (h : Interleaving bs l) {m : α} (hm : m ∈ l) : ∃ b ∈ bs, m ∈ b :=
  List.mem_flatten.mp (h.perm_flatten.mem_iff.mp hm)

/-- Every observation of a per-domain block is a gauge. -/
lemma domainStatMetrics_isGauge (qd : qratorDomain) (s : qratorDomainStat) :
    ∀ m ∈ domainStatMetrics qd s, Metric.isGauge m = true := by
  have h : (domainStatMetrics qd s).all Metric.isGauge = true := rfl
  exact fun m hm => List.all_eq_true.mp h m hm

/-- The observation keys of a per-domain block, in emission order. -/
lemma domainStatMetrics_keys (qd : qratorDomain) (s : qratorDomainStat) :
    (domainStatMetrics qd s).map metricKey =
      [ ("qrator_bypassed_traffic", [])
      , ("qrator_incoming_traffic", [])
      , ("qrator_outgoing_traffic", [])
      , ("qrator_bypassed_packets", [])
      , ("qrator_incoming_packets", [])
      , ("qrator_request_rate", [])
      , ("qrator_slow_requests_count", [("treshold_seconds", "0.2")])
      , ("qrator_slow_requests_count", [("treshold_seconds", "0.5")])
      , ("qrator_slow_requests_count", [("treshold_seconds", "0.7")])
      , ("qrator_slow_requests_count", [("treshold_seconds", "1.0")])
      , ("qrator_requests_count_total", [])
      , ("qrator_errors_count", [("code", "50X")])
      , ("qrator_errors_count", [("code", "501")])
      , ("qrator_errors_count", [("code", "502")])
      , ("qrator_errors_count", [("code", "503")])
      , ("qrator_errors_count", [("code", "504")])
      , ("qrator_banned_ip_addresses_count", [("source", "Qrator")])
      , ("qrator_banned_ip_addresses_count", [("source", "Qrator.API")])
      , ("qrator_banned_ip_addresses_count", [("source", "WAF")])
      , ("qrator_billable_traffic", []) ] := rfl

/-- The twenty observations of a per-domain block are pairwise
distinct. -/
lemma domainStatMetrics_keys_nodup (qd : qratorDomain) (s : qratorDomainStat) :
    ((domainStatMetrics qd s).map metricKey).Nodup := by
  rw [domainStatMetrics_keys]
  decide

/-- An observation of the block of an enumerated, successfully fetched
domain is sent to the channel during the cycle. -/
lemma mem_collect_of_block (st : CollectorState) (dr : FetchOutcome qratorDomains)
    (sr : qratorDomain → FetchOutcome qratorDomainStat) {qd : qratorDomain}
    {s : qratorDomainStat} {m : Metric} (hqd : qd ∈ enumDomains dr)
    (hs : getQratorDomainStats (sr qd) = .ok s) (hm : m ∈ domainStatMetrics qd s) :
    m ∈ (Collect st dr sr).2 := by
  have hb : (collectDomain sr qd).2 = domainStatMetrics qd s := by
    simp [collectDomain, hs]
  have hmem : (collectDomain sr qd).2 ∈ collectBlocks sr (enumDomains dr) :=
    List.mem_map_of_mem _ hqd
  show m ∈ (collectBlocks sr (enumDomains dr)).flatten ++ counterTail _
  exact List.mem_append_left _ (List.mem_flatten.mpr ⟨_, hmem, hb ▸ hm⟩)

/-- The sum of per-goroutine failed-statistics increments equals the
number of domains whose fetch fails. -/
lemma failedStats_sum_eq_count (sr : qratorDomain → FetchOutcome qratorDomainStat) :
    ∀ qds : List qratorDomain,
      (qds.map (fun qd => (collectDomain sr qd).1)).sum
        = (qds.filter (statFetchFailed sr)).length
  | [] => rfl
  | qd :: qds => by
      have ih := failedStats_sum_eq_count sr qds
      cases h : getQratorDomainStats (sr qd) with
      | error e =>
          have h1 : (collectDomain sr qd).1 = 1 := by simp [collectDomain, h]
          have h2 : statFetchFailed sr qd = true := by simp [statFetchFailed, h]
          rw [List.map_cons, List.sum_cons, h1, List.filter_cons, h2]
          simp [ih, Nat.add_comm]
      | ok s =>
          have h1 : (collectDomain sr qd).1 = 0 := by simp [collectDomain, h]
          have h2 : statFetchFailed sr qd = false := by simp [statFetchFailed, h]
          rw [List.map_cons, List.sum_cons, h1, List.filter_cons, h2]
          simp [ih]

/-- A non-digit anywhere in the character list makes the digit parse
fail, whatever the accumulator. -/
lemma parseDigits_eq_none :
    ∀ (cs : List Char) (c : Char), c ∈ cs → digitVal c = none →
      ∀ acc : Nat, parseDigits cs acc = none
  | [], c, hc, _, _ => absurd hc (List.not_mem_nil c)
  | d :: ds, c, hc, hnd, acc => by
      rcases List.mem_cons.mp hc with rfl | hc'
      · simp [parseDigits, hnd]
      · cases hd : digitVal d with
        | none => simp [parseDigits, hd]
        | some k =>
            simp only [parseDigits, hd]
            exact parseDigits_eq_none ds c hc' hnd (acc * 10 + k)

/-- Atoi rejects every string holding a non-digit character after the
optional leading sign. -/
lemma Atoi_eq_none_of_nondigit {s : String} {c : Char}
    (hc : c ∈ (splitSign s.data).2) (hnd : digitVal c = none) : Atoi s = none := by
  have hds : (splitSign s.data).2 ≠ [] := by
    intro h
    rw [h] at hc
    cases hc
  simp only [Atoi, if_neg hds, parseDigits_eq_none (splitSign s.data).2 c hc hnd 0]

end Helpers

/-- C6: for every decoded envelope of domains_get or statistics_get, a
non-empty error field fails the operation with an upstream error
carrying that message and no data is returned; an empty error field
makes the domain enumerator return the result array verbatim (the empty
array being a valid success) and the statistics fetcher return the full
flat statistics record. -/
theorem C6_envelope_error_discipline :
    (∀ env : qratorDomains,
      (env.error ≠ "" →
        getQratorDomains (.body env) = .error (.upstreamError env.error)) ∧
      (env.error = "" → getQratorDomains (.body env) = .ok env.domains)) ∧
    (∀ s : qratorDomainStat,
      (s.error ≠ "" →
        getQratorDomainStats (.body s) = .error (.upstreamError s.error)) ∧
      (s.error = "" → getQratorDomainStats (.body s) = .ok s)) := by
  constructor
  · intro env
    constructor
    · intro h; simp [getQratorDomains, h]
    · intro h; simp [getQratorDomains, h]
  · intro s
    constructor
    · intro h; simp [getQratorDomainStats, h]
    · intro h; simp [getQratorDomainStats, h]

/-- Witness for C6: a rejected envelope fails with its message, an
empty result array is returned as a success, and the fixture statistics
envelope is returned in full. -/
theorem C6_envelope_error_discipline_witness :
    getQratorDomains (.body { domains := [], error := "ACLException", id := 1 })
      = .error (.upstreamError "ACLException") ∧
    getQratorDomains (.body { domains := [], error := "", id := 1 }) = .ok [] ∧
    getQratorDomainStats (.body exStat) = .ok exStat :=
  ⟨(C6_envelope_error_discipline.1 _).1 (by decide),
   (C6_envelope_error_discipline.1 _).2 rfl,
   (C6_envelope_error_discipline.2 _).2 rfl⟩

/-- C8: every upstream call targets baseURL/methodClass/entityID with a
POST, a JSON body carrying the method name, an always-empty params
field and the constant id 1, a Content-Type header, and the
X-Qrator-Auth header holding the configured token. -/
theorem C8_post_request_shape (base auth methodCls : String) (entityID : Int)
    (method : String) :
    (qratorPostRequest base auth methodCls entityID method).httpMethod = "POST" ∧
    (qratorPostRequest base auth methodCls entityID method).url
      = base ++ "/" ++ methodCls ++ "/" ++ toString entityID ∧
    (qratorPostRequest base auth methodCls entityID method).reqBody
      = { method := method, params := "", id := 1 } ∧
    (qratorPostRequest base auth methodCls entityID method).headers
      = [("Content-Type", "application/json"), ("X-Qrator-Auth", auth)] :=
  ⟨rfl, rfl, rfl, rfl⟩

/-- C10: the constructor liveness probe never inspects the ping result
value: with an empty error field the probe succeeds whatever the result
holds, the outcome is unchanged under any replacement of the result
field, and the probe fails exactly on a transport error, a decode
error, or a non-empty error field. -/
theorem C10_ping_result_never_inspected :
    (∀ ping : qratorPing, ping.error = "" → qratorCheck (.body ping) = .ok ()) ∧
    (∀ ping : qratorPing, ∀ r : String,
      qratorCheck (.body ping) = qratorCheck (.body { ping with result := r })) ∧
    (∀ ping : qratorPing, ping.error ≠ "" →
      qratorCheck (.body ping) = .error (.upstreamError ping.error)) ∧
    (∀ m, qratorCheck (.transportErr m) = .error (.transportError m)) ∧
    (∀ m, qratorCheck (.decodeErr m) = .error (.decodeError m)) := by
  refine ⟨?_, ?_, ?_, fun m => rfl, fun m => rfl⟩
  · intro p h; simp [qratorCheck, h]
  · intro p r; simp [qratorCheck]
  · intro p h; simp [qratorCheck, h]

/-- Witness for C10: a ping envelope whose result is not pong still
passes the probe. -/
theorem C10_ping_result_never_inspected_witness :
    qratorCheck (.body { result := "banana", error := "", id := 7 }) = .ok () :=
  C10_ping_result_never_inspected.1 _ rfl

/-- C3 counterexample: the account identifier string containing the
non-digit minus sign is accepted by validation, and construction
succeeds whenever the upstream probe does, refuting the claim as
stated. -/
theorem C3_counterexample :
    NewCollector "http://api" "-5" "tok" pingOk
      = .ok { auth := "tok", clientID := -5, qratorAPIURL := "http://api" } := by
  rfl

/-- C3 amended: construction fails with a validation error, before the
probe and regardless of its outcome, for every account-identifier
string rejected by Atoi — in particular whenever any character after
the optional leading sign is a non-digit; a leading sign followed by
digits passes validation. -/
theorem C3_validation_before_probe (url auth s : String)
    (pr : Int → FetchOutcome qratorPing) :
    (Atoi s = none → NewCollector url s auth pr = .error (.validationError s)) ∧
    (∀ c ∈ (splitSign s.data).2, digitVal c = none →
      NewCollector url s auth pr = .error (.validationError s)) := by
  have key : Atoi s = none → NewCollector url s auth pr = .error (.validationError s) := by
    intro h; simp [NewCollector, h]
  exact ⟨key, fun c hc hnd => key (Atoi_eq_none_of_nondigit hc hnd)⟩

/-- Witness for C3 amended: a client id holding a letter is rejected
before the probe even when the probe would succeed. -/
theorem C3_validation_before_probe_witness :
    NewCollector "http://api" "12a" "tok" pingOk = .error (.validationError "12a") :=
  (C3_validation_before_probe "http://api" "tok" "12a" pingOk).1 (by decide)

/-- C5: Collect is total (its model returns a state and a channel, no
error), increments the total-scrape counter unconditionally, and when
domain enumeration fails it increments the failed-domain-scrape counter
once, emits zero per-domain metrics, and still sends the process
counters at the end of the cycle. -/
theorem C5_collect_absorbs_enumeration_failure (st : CollectorState)
    (dr : FetchOutcome qratorDomains)
    (sr : qratorDomain → FetchOutcome qratorDomainStat) :
    (collectState st dr sr).totalScrapes = st.totalScrapes + 1 ∧
    (Collect st dr sr).1 = collectState st dr sr ∧
    (∀ e, getQratorDomains dr = .error e →
      (collectState st dr sr).failedDomainScrapes = st.failedDomainScrapes + 1 ∧
      (collectState st dr sr).failedDomainStatsScrapes
        = st.failedDomainStatsScrapes ∧
      (Collect st dr sr).2 = counterTail (collectState st dr sr)) := by
  refine ⟨?_, rfl, ?_⟩
  · cases h : getQratorDomains dr <;> simp [collectState, h]
  · intro e h
    refine ⟨by simp [collectState, h], by simp [collectState, enumDomains, h], ?_⟩
    show (collectBlocks sr (enumDomains dr)).flatten ++ _ = _
    simp [enumDomains, h, collectBlocks]

/-- Witness for C5: a cycle whose enumeration fails on transport
increments both counters and emits exactly the counter tail. -/
theorem C5_collect_absorbs_enumeration_failure_witness :
    (collectState st0 exDomainsRespFail exStatsResp).totalScrapes = 0 + 1 ∧
    (collectState st0 exDomainsRespFail exStatsResp).failedDomainScrapes = 0 + 1 ∧
    (Collect st0 exDomainsRespFail exStatsResp).2
      = counterTail (collectState st0 exDomainsRespFail exStatsResp) := by
  have h := C5_collect_absorbs_enumeration_failure st0 exDomainsRespFail exStatsResp
  exact ⟨h.1, (h.2.2 _ rfl).1, (h.2.2 _ rfl).2.2⟩

/-- C1 counterexample: on the fixture domain and statistics envelope
the per-domain block holds twenty pairwise-distinct gauge observations,
not nineteen — the claimed category breakdown itself sums to twenty. -/
theorem C1_counterexample :
    (domainStatMetrics exDomain exStat).length = 20 ∧
    ((domainStatMetrics exDomain exStat).map metricKey).Nodup ∧
    ¬ (domainStatMetrics exDomain exStat).length = 19 := by
  decide

/-- C1 amended: for every domain whose statistics fetch succeeds during
a collection cycle, Collect sets exactly twenty distinct gauge
observations for that domain (traffic, packets, request rate, latency
buckets, total requests, error classes, ban sources, billable traffic)
and emits each of them to the output metric channel. -/
theorem C1_successful_fetch_emits_twenty (st : CollectorState)
    (dr : FetchOutcome qratorDomains)
    (sr : qratorDomain → FetchOutcome qratorDomainStat) (qd : qratorDomain)
    (s : qratorDomainStat) (hqd : qd ∈ enumDomains dr)
    (hs : getQratorDomainStats (sr qd) = .ok s) :
    (collectDomain sr qd).2 = domainStatMetrics qd s ∧
    (domainStatMetrics qd s).length = 20 ∧
    ((domainStatMetrics qd s).map metricKey).Nodup ∧
    ∀ m ∈ domainStatMetrics qd s,
      Metric.isGauge m = true ∧ m ∈ (Collect st dr sr).2 := by
  refine ⟨by simp [collectDomain, hs], rfl, domainStatMetrics_keys_nodup qd s, ?_⟩
  intro m hm
  exact ⟨domainStatMetrics_isGauge qd s m hm, mem_collect_of_block st dr sr hqd hs hm⟩

/-- Witness for C1 amended: the fixture domain's successful fetch
produces exactly its per-domain block. -/
theorem C1_successful_fetch_emits_twenty_witness :
    (collectDomain exStatsResp exDomain).2 = domainStatMetrics exDomain exStat :=
  (C1_successful_fetch_emits_twenty st0 exDomainsResp exStatsResp exDomain exStat
    (by decide) rfl).1

/-- C2: in a concrete successful cycle, the channel carries exactly one
observation named qrator_exporter_scrapes_total and one named
qrator_exporter_failed_domain_scrapes_total, and none named
qrator_exporter_failed_domain_stats_scrapes_total: the failed-stats
counter is incremented by Collect but never sent to the channel. -/
theorem C2_failed_stats_counter_not_emitted :
    ((Collect st0 exDomainsResp exStatsResp).2.filter
      (fun m => m.metricName = "qrator_exporter_scrapes_total")).length = 1 ∧
    ((Collect st0 exDomainsResp exStatsResp).2.filter
      (fun m => m.metricName = "qrator_exporter_failed_domain_scrapes_total")).length = 1 ∧
    ((Collect st0 exDomainsResp exStatsResp).2.filter
      (fun m => m.metricName = "qrator_exporter_failed_domain_stats_scrapes_total")).length = 0 := by
  decide

/-- C4: for a cycle whose enumeration succeeds, the failed-statistics
counter grows by exactly the number of domains whose fetch fails, a
failing domain contributes no observations, and every sibling whose
fetch succeeds still has its full block emitted to the channel. -/
theorem C4_failed_fetch_isolated (st : CollectorState)
    (dr : FetchOutcome qratorDomains)
    (sr : qratorDomain → FetchOutcome qratorDomainStat) (qds : List qratorDomain)
    (h : getQratorDomains dr = .ok qds) :
    (collectState st dr sr).failedDomainStatsScrapes
      = st.failedDomainStatsScrapes + (qds.filter (statFetchFailed sr)).length ∧
    (∀ qd ∈ qds, ∀ e, getQratorDomainStats (sr qd) = .error e →
      (collectDomain sr qd).2 = []) ∧
    (∀ qd ∈ qds, ∀ s, getQratorDomainStats (sr qd) = .ok s →
      (collectDomain sr qd).2 = domainStatMetrics qd s ∧
      ∀ m ∈ domainStatMetrics qd s, m ∈ (Collect st dr sr).2) := by
  have henum : enumDomains dr = qds := by simp [enumDomains, h]
  refine ⟨?_, ?_, ?_⟩
  · simp [collectState, h, henum, failedStats_sum_eq_count]
  · intro qd hqd e he
    simp [collectDomain, he]
  · intro qd hqd s hs
    exact ⟨by simp [collectDomain, hs],
      fun m hm => mem_collect_of_block st dr sr (henum ▸ hqd) hs hm⟩

/-- Witness for C4: with one succeeding and one failing domain the
failed-statistics counter grows by exactly one. -/
theorem C4_failed_fetch_isolated_witness :
    (collectState st0 exDomainsResp2 exStatsRespMixed).failedDomainStatsScrapes = 1 := by
  have h := (C4_failed_fetch_isolated st0 exDomainsResp2 exStatsRespMixed
    [exDomain, exDomain2] rfl).1
  rw [h]
  decide

/-- C7: every per-domain block carries exactly one slow-request gauge
per threshold label, the labels 0.2, 0.5, 0.7 and 1.0 carrying the
reqlonger02s, reqlonger05s, reqlonger07s and reqlonger10s fields
respectively; when reqlonger10s is 657 the emitted gauge under the
threshold label 1.0 equals 657 and reaches the channel for every cycle
that enumerates the domain and fetches it successfully. -/
theorem C7_slow_request_threshold_mapping (qd : qratorDomain)
    (s : qratorDomainStat) (st : CollectorState) (dr : FetchOutcome qratorDomains)
    (sr : qratorDomain → FetchOutcome qratorDomainStat)
    (h657 : s.result.reqlonger10s = 657) (hqd : qd ∈ enumDomains dr)
    (hs : getQratorDomainStats (sr qd) = .ok s) :
    slowRequestValues qd s "0.2" = [(s.result.reqlonger02s : Rat)] ∧
    slowRequestValues qd s "0.5" = [(s.result.reqlonger05s : Rat)] ∧
    slowRequestValues qd s "0.7" = [(s.result.reqlonger07s : Rat)] ∧
    slowRequestValues qd s "1.0" = [(657 : Rat)] ∧
    Metric.gauge "qrator_slow_requests_count"
        [("domain", qd.name), ("treshold_seconds", "1.0")] (657 : Rat)
      ∈ (Collect st dr sr).2 := by
  have hcast : (s.result.reqlonger10s : Rat) = (657 : Rat) := by
    rw [h657]; norm_num
  refine ⟨rfl, rfl, rfl, ?_, ?_⟩
  · show [(s.result.reqlonger10s : Rat)] = [(657 : Rat)]
    rw [hcast]
  · apply mem_collect_of_block st dr sr hqd hs
    rw [← hcast]
    simp [domainStatMetrics]

/-- Witness for C7: the fixture statistics envelope carries
reqlonger10s equal to 657 and maps it to the 1.0 threshold label. -/
theorem C7_slow_request_threshold_mapping_witness :
    slowRequestValues exDomain exStat "1.0" = [(657 : Rat)] :=
  (C7_slow_request_threshold_mapping exDomain exStat st0 exDomainsResp exStatsResp
    rfl (by decide) rfl).2.2.2.1

/-- C9: for every admissible interleaving of the per-domain fan-out,
every observation emitted before the counter tail is a gauge produced
by a successful statistics fetch of a domain returned by the
enumeration (so enumeration is observed before any fetch emits), and
the two process counters are the last emissions of the cycle, after the
whole fan-out has joined; the sequential schedule realised by Collect
is one such interleaving. -/
theorem C9_enumeration_first_counters_last (st : CollectorState)
    (dr : FetchOutcome qratorDomains)
    (sr : qratorDomain → FetchOutcome qratorDomainStat)
    (l : List Metric)
    (hl : Interleaving (collectBlocks sr (enumDomains dr)) l) :
    (Collect st dr sr).2
      = (collectBlocks sr (enumDomains dr)).flatten
        ++ counterTail (collectState st dr sr) ∧
    Interleaving (collectBlocks sr (enumDomains dr))
      ((collectBlocks sr (enumDomains dr)).flatten) ∧
    (∀ m ∈ l, Metric.isGauge m = true ∧
      ∃ qd s, qd ∈ enumDomains dr ∧ getQratorDomainStats (sr qd) = .ok s ∧
        m ∈ domainStatMetrics qd s) ∧
    (l ++ counterTail (collectState st dr sr)).drop l.length
      = counterTail (collectState st dr sr) ∧
    (∀ i (hi : i < (l ++ counterTail (collectState st dr sr)).length),
      Metric.isGauge ((l ++ counterTail (collectState st dr sr)).get ⟨i, hi⟩) = false →
      l.length ≤ i) := by
  have hmem : ∀ m ∈ l, Metric.isGauge m = true ∧
      ∃ qd s, qd ∈ enumDomains dr ∧ getQratorDomainStats (sr qd) = .ok s ∧
        m ∈ domainStatMetrics qd s := by
    intro m hm
    obtain ⟨b, hb, hmb⟩ := hl.mem_blocks hm
    obtain ⟨qd, hqd, hbeq⟩ := List.mem_map.mp hb
    cases hs : getQratorDomainStats (sr qd) with
    | error e =>
        have hbnil : b = [] := by rw [← hbeq]; simp [collectDomain, hs]
        rw [hbnil] at hmb
        cases hmb
    | ok s =>
        have hbs : b = domainStatMetrics qd s := by
          rw [← hbeq]; simp [collectDomain, hs]
        rw [hbs] at hmb
        exact ⟨domainStatMetrics_isGauge qd s m hmb, qd, s, hqd, hs, hmb⟩
  refine ⟨rfl, interleaving_flatten _, hmem, List.drop_left l _, ?_⟩
  intro i hi hcounter
  by_contra hge
  push_neg at hge
  have hget : (l ++ counterTail (collectState st dr sr)).get ⟨i, hi⟩
      = l.get ⟨i, hge⟩ := by
    rw [List.get_eq_getElem, List.get_eq_getElem]
    exact List.getElem_append_left hge
  have hgauge := (hmem _ (List.get_mem l i hge)).1
  rw [hget, hgauge] at hcounter
  cases hcounter

/-- Witness for C9: the sequential schedule of the fixture cycle, an
admissible interleaving, yields the per-domain blocks followed by the
counter tail. -/
theorem C9_enumeration_first_counters_last_witness :
    (Collect st0 exDomainsResp exStatsResp).2
      = (collectBlocks exStatsResp (enumDomains exDomainsResp)).flatten
        ++ counterTail (collectState st0 exDomainsResp exStatsResp) :=
  (C9_enumeration_first_counters_last st0 exDomainsResp exStatsResp _
    (interleaving_flatten _)).1

end QratorExporter
